import Mathlib

/-!
Verification of the ASPIRE case-submission pipeline.

Shallow embedding of the TypeScript sources:
  - src/lib/aspire-api.ts   (payload mapper, validator, mock predictor)
  - src/lib/data-platform.ts (orchestrator: submission, prediction, retry)

Conventions of the embedding:
  - JS numbers are modelled as rationals (ℚ); the clinical fields involved
    carry small decimal values for which rational arithmetic is exact.
  - Wall-clock reads (`new Date()`) are passed in explicitly as integer
    epoch-millisecond parameters; date formatting assumes UTC.
  - Randomness (`Math.random()`) is passed in explicitly (jitter and
    confidence parameters of the mock predictor, request-id string).
  - The network call of `callAspireApi` is an oracle parameter returning
    either a response or one of the three error kinds it can throw.
  - The CStore hash backend is modelled as association lists keyed by
    string; `hset` replaces an existing key or appends a fresh one.
    JSON serialisation round-trips are modelled as the identity.
  - Exceptions are modelled with `Except`; a function that catches them
    returns the corresponding sum.
-/

namespace Aspire

/-! ## Data model (src/lib/types.ts) -/

inductive PrenatalFactor
  | natural | ivf | twin | complication
deriving DecidableEq, Repr

inductive DevelopmentalDelay
  | noDelay | motor | language | cognitive | global
deriving DecidableEq, Repr

inductive IntellectualDisability
  | N | F70_0 | F71 | F72
deriving DecidableEq, Repr

inductive BehaviorConcern
  | aggressivity | selfInjury | agitation | stereotypy | hyperactivity | sleep | sensory
deriving DecidableEq, Repr

inductive Sex
  | male | female
deriving DecidableEq, Repr

inductive LanguageLevel
  | functional | delayed | absent
deriving DecidableEq, Repr

structure ParentalAge where
  mother : ℚ
  father : ℚ
deriving DecidableEq, Repr

structure Demographics where
  caseLabel : String
  ageMonths : ℚ
  sex : Sex
  parentalAge : ParentalAge
  diagnosticAgeMonths : ℚ
  prenatalFactors : List PrenatalFactor
deriving DecidableEq, Repr

structure Development where
  delays : List DevelopmentalDelay
  dysmorphicFeatures : Bool
  intellectualDisability : IntellectualDisability
  comorbidities : List String
  regressionObserved : Bool
deriving DecidableEq, Repr

structure Assessments where
  adosScore : ℚ
  adirScore : ℚ
  iqDq : ℚ
  eegAnomalies : Bool
  mriFindings : Option String
  neurologicalExam : String
  headCircumference : ℚ
deriving DecidableEq, Repr

structure Behaviors where
  concerns : List BehaviorConcern
  languageLevel : LanguageLevel
  sensoryNotes : String
deriving DecidableEq, Repr

structure CaseSubmission where
  demographics : Demographics
  development : Development
  assessments : Assessments
  behaviors : Behaviors
  notes : String
deriving DecidableEq, Repr

/-! ## Aspire API request schema (src/lib/types.ts) -/

inductive MilestoneCode
  | N | G | M | C
deriving DecidableEq, Repr

inductive LangDevCode
  | N | delay | A
deriving DecidableEq, Repr

inductive YN
  | N | Y
deriving DecidableEq, Repr

inductive DysmorphismCode
  | NO | Y
deriving DecidableEq, Repr

structure StructData where
  developmental_milestones : MilestoneCode
  iq_dq : ℚ
  intellectual_disability : IntellectualDisability
  language_disorder : YN
  language_development : LangDevCode
  dysmorphism : DysmorphismCode
  behaviour_disorder : YN
  neurological_exam : String
deriving DecidableEq, Repr

structure RequestMetadata where
  patient_id : Option String
  session_id : Option String
deriving DecidableEq, Repr

structure AspireApiRequest where
  struct_data : StructData
  metadata : Option RequestMetadata
deriving DecidableEq, Repr

inductive RiskLevel
  | low | medium | high
deriving DecidableEq, Repr

inductive PredictionLabel
  | healthy | asd
deriving DecidableEq, Repr

/-- Response of the prediction service (bookkeeping fields `processed_at`
and `metadata` carry no pipeline-relevant information and are omitted). -/
structure AspireApiResponse where
  status : String
  request_id : String
  prediction : PredictionLabel
  probability : ℚ
  confidence : ℚ
  risk_level : RiskLevel
  input_summary : StructData
  processor_version : String
deriving DecidableEq, Repr

/-! ## Payload mapper (src/lib/aspire-api.ts, mapCaseToApiPayload) -/

/-- `mapCaseToApiPayload` from src/lib/aspire-api.ts.
The TS `languageDevelopmentMap` lookup with its `|| 'N'` fallback is total
on the closed `languageLevel` union, so it is a match here. -/
def mapCaseToApiPayload (submission : CaseSubmission) (caseId : Option String) :
    AspireApiRequest :=
  let development := submission.development
  let assessments := submission.assessments
  let behaviors := submission.behaviors
  -- Map developmental_milestones: prioritize Global > Motor > Cognitive > None
  let developmentalMilestones : MilestoneCode :=
    if DevelopmentalDelay.global ∈ development.delays then .G
    else if DevelopmentalDelay.motor ∈ development.delays then .M
    else if DevelopmentalDelay.cognitive ∈ development.delays then .C
    else .N
  -- Map language_development from languageLevel
  let languageDevelopment : LangDevCode :=
    match behaviors.languageLevel with
    | .functional => .N
    | .delayed => .delay
    | .absent => .A
  -- Derive language_disorder: Y if not Functional
  let languageDisorder : YN :=
    if behaviors.languageLevel ≠ .functional then .Y else .N
  -- Map dysmorphism
  let dysmorphism : DysmorphismCode :=
    if development.dysmorphicFeatures then .Y else .NO
  -- Derive behaviour_disorder: Y if any concerns present
  let behaviourDisorder : YN :=
    if behaviors.concerns.length > 0 then .Y else .N
  { struct_data :=
      { developmental_milestones := developmentalMilestones
        iq_dq := assessments.iqDq
        intellectual_disability := development.intellectualDisability
        language_disorder := languageDisorder
        language_development := languageDevelopment
        dysmorphism := dysmorphism
        behaviour_disorder := behaviourDisorder
        neurological_exam := assessments.neurologicalExam }
    metadata := caseId.map fun cid => { patient_id := some cid, session_id := none } }

/-! ## Payload validator (src/lib/aspire-api.ts, validateApiPayload) -/

inductive ValidationResult
  | valid (payload : AspireApiRequest)
  | invalid (errors : List String)
deriving DecidableEq, Repr

/-- Error message pushed by the iq_dq range check. -/
def iqDqErrorMessage (q : ℚ) : String :=
  "Invalid iq_dq: \"" ++ toString q ++ "\". Must be a number between 20 and 150."

/-- Error message pushed by the neurological_exam check. -/
def neuroExamErrorMessage : String :=
  "neurological_exam is required and cannot be empty."

/-- JS `String.prototype.trim`: strip leading and trailing whitespace. -/
def jsTrim (s : String) : String :=
  ⟨((s.data.dropWhile Char.isWhitespace).reverse.dropWhile Char.isWhitespace).reverse⟩

/-- The error list accumulated by `validateApiPayload`, in push order.
The enumeration checks of the source (`developmental_milestones`,
`intellectual_disability`, `language_disorder`, `language_development`,
`dysmorphism`, `behaviour_disorder`) are retained; on the typed model they
never fire, exactly as they cannot for a well-typed TS payload.  The
`typeof iq_dq !== 'number'` disjunct is vacuous on the typed model. -/
def validationErrors (payload : AspireApiRequest) : List String :=
  let sd := payload.struct_data
  (if sd.developmental_milestones ∈ [MilestoneCode.N, .G, .M, .C] then []
   else ["Invalid developmental_milestones. Must be N, G, M, or C."])
  ++ (if sd.iq_dq < 20 ∨ sd.iq_dq > 150 then [iqDqErrorMessage sd.iq_dq] else [])
  ++ (if sd.intellectual_disability ∈ [IntellectualDisability.N, .F70_0, .F71, .F72] then []
      else ["Invalid intellectual_disability. Must be N, F70.0, F71, or F72."])
  ++ (if sd.language_disorder ∈ [YN.N, .Y] then []
      else ["Invalid language_disorder. Must be N or Y."])
  ++ (if sd.language_development ∈ [LangDevCode.N, .delay, .A] then []
      else ["Invalid language_development. Must be N, delay, or A."])
  ++ (if sd.dysmorphism ∈ [DysmorphismCode.NO, .Y] then []
      else ["Invalid dysmorphism. Must be NO or Y."])
  ++ (if sd.behaviour_disorder ∈ [YN.N, .Y] then []
      else ["Invalid behaviour_disorder. Must be N or Y."])
  ++ (if jsTrim sd.neurological_exam = "" then [neuroExamErrorMessage] else [])

/-- `validateApiPayload` from src/lib/aspire-api.ts. -/
def validateApiPayload (payload : AspireApiRequest) : ValidationResult :=
  let errors := validationErrors payload
  if errors.length > 0 then .invalid errors else .valid payload

/-! ## Mock predictor (src/lib/aspire-api.ts, generateMockPredictionResponse) -/

/-- `generateMockPredictionResponse` from src/lib/aspire-api.ts.
`jitter` stands for `(Math.random() - 0.5) * 0.1` (range [-0.05, 0.05));
`confRand` stands for the `Math.random()` draw of the confidence;
`requestId` stands for the generated `mock-...` request id. -/
def generateMockPredictionResponse (payload : AspireApiRequest)
    (jitter confRand : ℚ) (requestId : String) : AspireApiResponse :=
  let sd := payload.struct_data
  -- Calculate a mock probability based on risk factors
  let riskScore : ℚ :=
    (if sd.developmental_milestones ≠ .N then 15/100 else 0)
    + (if sd.intellectual_disability ≠ .N then 20/100 else 0)
    + (if sd.language_disorder = .Y then 15/100 else 0)
    + (if sd.language_development ≠ .N then 10/100 else 0)
    + (if sd.dysmorphism = .Y then 10/100 else 0)
    + (if sd.behaviour_disorder = .Y then 15/100 else 0)
    + (if sd.iq_dq < 70 then 15/100 else if sd.iq_dq < 85 then 5/100 else 0)
  let probability : ℚ := min (95/100) (max (5/100) (riskScore + jitter))
  let prediction : PredictionLabel := if probability ≥ 1/2 then .asd else .healthy
  let confidence : ℚ := 7/10 + confRand * (25/100)
  let risk_level : RiskLevel :=
    if probability ≥ 7/10 then .high
    else if probability ≥ 4/10 then .medium
    else .low
  { status := "completed"
    request_id := requestId
    prediction := prediction
    probability := probability
    confidence := confidence
    risk_level := risk_level
    input_summary := sd
    processor_version := "0.1.0-mock" }

/-! ## Inference results (src/lib/types.ts) and the prediction runner
(src/lib/data-platform.ts, runPrediction) -/

structure InferenceCategory where
  label : String
  probability : ℚ
  narrative : Option String
deriving DecidableEq, Repr

structure InferenceResult where
  topPrediction : String
  prediction : Option PredictionLabel
  probability : Option ℚ
  confidence : Option ℚ
  riskLevel : Option RiskLevel
  categories : List InferenceCategory
  explanation : String
  recommendedActions : List String
deriving DecidableEq, Repr

/-- The three error classes of src/lib/aspire-api.ts that `callAspireApi`
and the mapper can raise. -/
inductive AspireError
  | validationError (message : String)
  | apiError (message : String) (errorCode : String) (errorType : String)
  | networkError (message : String)
deriving DecidableEq, Repr

/-- The error string `runPrediction` builds from a caught error
(src/lib/data-platform.ts lines 297-307). -/
def caughtErrorMessage : AspireError → String
  | .validationError m => "Validation error: " ++ m
  | .apiError m _ _ => "API error: " ++ m
  | .networkError m => "Network error: " ++ m

/-- Rendering of the prediction label, as serialised in TS. -/
def labelString : PredictionLabel → String
  | .healthy => "Healthy"
  | .asd => "ASD"

def oppositeLabel : PredictionLabel → PredictionLabel
  | .healthy => .asd
  | .asd => .healthy

/-- `(probability * 100).toFixed(1)`: one-decimal fixed rendering of the
probability as a percentage (round half up, as for the nonnegative values
that occur here). -/
def percentFixed1 (q : ℚ) : String :=
  let tenths : Int := ⌊q * 1000 + 1/2⌋
  toString (tenths / 10) ++ "." ++ toString (tenths % 10)

/-- The inference record `runPrediction` builds from a successful response
(src/lib/data-platform.ts lines 272-285). -/
def inferenceFromResponse (response : AspireApiResponse) : InferenceResult :=
  { topPrediction := labelString response.prediction
    prediction := some response.prediction
    probability := some response.probability
    confidence := some response.confidence
    riskLevel := some response.risk_level
    categories :=
      [ { label := labelString response.prediction
          probability := response.probability
          narrative := none },
        { label := labelString (oppositeLabel response.prediction)
          probability := 1 - response.probability
          narrative := none } ]
    explanation := labelString response.prediction ++ " with "
      ++ percentFixed1 response.probability ++ "% probability."
    recommendedActions := [] }

/-- Configuration and effect oracles that `runPrediction` consumes:
`mockMode` is `platformConfig.MOCK_MODE`, `aspireEnabled` is
`platformConfig.aspire.enabled`, `predictor` is the behaviour of
`callAspireApi` (a response, or one of the error classes it throws), and
`jitter`/`confRand`/`requestId` feed the mock predictor. -/
structure PredictionEnv where
  mockMode : Bool
  aspireEnabled : Bool
  predictor : AspireApiRequest → Except AspireError AspireApiResponse
  jitter : ℚ
  confRand : ℚ
  requestId : String

/-- `runPrediction` from src/lib/data-platform.ts: map, validate, then
predict (mock or live); catches the thrown error classes and returns
`\x7b error \x7d`, modelled as `Except.error`. -/
def runPrediction (env : PredictionEnv) (submission : CaseSubmission)
    (caseId : String) : Except String InferenceResult :=
  -- Map case data to API payload
  let payload := mapCaseToApiPayload submission (some caseId)
  -- Validate payload before sending
  match validateApiPayload payload with
  | .invalid errors =>
      .error ("Validation failed: " ++ String.intercalate ", " errors)
  | .valid payload =>
      let response : Except AspireError AspireApiResponse :=
        if env.mockMode || !env.aspireEnabled then
          .ok (generateMockPredictionResponse payload env.jitter env.confRand env.requestId)
        else
          env.predictor payload
      match response with
      | .ok response => .ok (inferenceFromResponse response)
      | .error e => .error (caughtErrorMessage e)

/-! ## Jobs, case records and storage (src/lib/types.ts, src/lib/data-platform.ts)

Timestamps are integer epoch milliseconds; the ISO strings the source
stores are a monotone injective image of them. -/

inductive InferenceJobStatus
  | queued | running | succeeded | failed
deriving DecidableEq, Repr

structure StatusEntry where
  status : InferenceJobStatus
  timestamp : Int
  message : Option String
deriving DecidableEq, Repr

structure InferenceJob where
  id : String
  caseId : String
  status : InferenceJobStatus
  submittedAt : Int
  completedAt : Option Int
  edgeNode : Option String
  payloadCid : Option String
  result : Option InferenceResult
  error : Option String
  statusHistory : List StatusEntry
deriving DecidableEq, Repr

structure Artifacts where
  payloadCid : Option String
deriving DecidableEq, Repr

structure CaseRecord where
  demographics : Demographics
  development : Development
  assessments : Assessments
  behaviors : Behaviors
  notes : String
  id : String
  submittedAt : Int
  inference : InferenceResult
  jobId : Option String
  artifacts : Artifacts
deriving DecidableEq, Repr

/-- The persistence state: the two CStore hashes (cases and jobs) as
association lists, plus the filenames uploaded to R1FS. -/
structure Storage where
  cases : List (String × CaseRecord)
  jobs : List (String × InferenceJob)
  files : List String
deriving DecidableEq, Repr

/-- `cstore.hset`: replace the value under an existing key, or append. -/
def hset {α : Type} (m : List (String × α)) (k : String) (v : α) :
    List (String × α) :=
  if m.any (fun kv => kv.1 == k) then
    m.map (fun kv => if kv.1 == k then (k, v) else kv)
  else m ++ [(k, v)]

/-- `cstore.hget`: lookup by key. -/
def hget {α : Type} (m : List (String × α)) (k : String) : Option α :=
  (m.find? (fun kv => kv.1 == k)).map (·.2)

/-! ## Id generation (src/lib/data-platform.ts, createCaseId / createJobId) -/

/-- Civil date (year, month, day) from a count of days since 1970-01-01
(Gregorian, UTC).  Valid for every day count at or after year -480000,
which covers all epoch-millisecond timestamps that occur. -/
def civilFromDays (z : Int) : Int × Nat × Nat :=
  let zn : Nat := (z + 719468).toNat
  let era : Nat := zn / 146097
  let doe : Nat := zn % 146097
  let yoe : Nat := (doe - doe / 1460 + doe / 36524 - doe / 146096) / 365
  let doy : Nat := doe - (365 * yoe + yoe / 4 - yoe / 100)
  let mp : Nat := (5 * doy + 2) / 153
  let d : Nat := doy - (153 * mp + 2) / 5 + 1
  let m : Nat := if mp < 10 then mp + 3 else mp - 9
  ((era : Int) * 400 + (yoe : Int) + (if m ≤ 2 then 1 else 0), m, d)

/-- `String(n).padStart(2, '0')`. -/
def pad2 (n : Nat) : String :=
  if n < 10 then "0" ++ toString n else toString n

/-- `s.slice(-4)`: the last four characters. -/
def lastFour (s : String) : String :=
  s.drop (s.length - 4)

/-- `createCaseId` from src/lib/data-platform.ts: `R1-YYYYMMDD` from the
submission date (UTC) plus the last four digits of the millisecond time. -/
def createCaseId (timestamp : Int) : String :=
  let days : Int := Int.fdiv timestamp 86400000
  let civil := civilFromDays days
  let baseId := "R1-" ++ toString civil.1 ++ pad2 civil.2.1 ++ pad2 civil.2.2
  baseId ++ "-" ++ lastFour (toString timestamp)

/-- `createJobId` from src/lib/data-platform.ts. -/
def createJobId (timestamp : Int) : String :=
  "JOB-" ++ toString timestamp

/-- `createStatusHistory` from src/lib/data-platform.ts. -/
def createStatusHistory (status : InferenceJobStatus) (timestamp : Int) :
    List StatusEntry :=
  [{ status := status, timestamp := timestamp, message := none }]

/-! ## Orchestrator (src/lib/data-platform.ts) -/

/-- The pending placeholder inference built by `storeCaseSubmission`. -/
def pendingInference : InferenceResult :=
  { topPrediction := "Pending inference"
    prediction := none
    probability := none
    confidence := none
    riskLevel := none
    categories := [{ label := "Awaiting prediction", probability := 1, narrative := none }]
    explanation := "Inference job has been queued and is awaiting execution."
    recommendedActions :=
      ["Monitor job queue for completion.", "Notify caregivers once results are available."] }

/-- Outcome of the best-effort R1FS upload in `storeCaseInLiveMode`:
failure (caught and swallowed), or success with the extracted cid
candidate and edge-node fields. -/
structure UploadEnv where
  outcome : Except Unit (Option String × Option String)

structure LiveStoreResult where
  record : CaseRecord
  job : InferenceJob
  storage : Storage
deriving Repr

/-- `storeCaseInLiveMode` from src/lib/data-platform.ts.  `timestamp`,
`runningTime` and `completedTime` are the three `Date` reads of the
source, in program order. -/
def storeCaseInLiveMode (penv : PredictionEnv) (upload : UploadEnv)
    (timestamp runningTime completedTime : Int) (storage : Storage)
    (record : CaseRecord) (submission : CaseSubmission) : LiveStoreResult :=
  -- Best-effort R1FS upload of the submission payload; failure is swallowed
  let payloadCid : Option String :=
    match upload.outcome with
    | .ok p => p.1
    | .error _ => none
  let edgeNode : Option String :=
    match upload.outcome with
    | .ok p => p.2
    | .error _ => none
  let files : List String :=
    match upload.outcome with
    | .ok _ => storage.files ++ [record.id ++ ".json"]
    | .error _ => storage.files
  let record := { record with
    artifacts := { payloadCid := payloadCid.orElse fun _ => record.artifacts.payloadCid } }
  -- Create initial job with queued status
  let job : InferenceJob :=
    { id := record.jobId.getD (createJobId timestamp)
      caseId := record.id
      status := .queued
      submittedAt := timestamp
      completedAt := none
      edgeNode := edgeNode
      payloadCid := payloadCid
      result := none
      error := none
      statusHistory := createStatusHistory .queued timestamp }
  let record := { record with jobId := some job.id }
  -- Advance to running before invoking the prediction
  let job := { job with
    status := .running
    statusHistory := createStatusHistory .queued timestamp
      ++ [({ status := .running, timestamp := runningTime, message := none } : StatusEntry)] }
  let predictionResult := runPrediction penv submission record.id
  let (record, job) :=
    match predictionResult with
    | .ok inference =>
        ({ record with inference := inference },
         { job with
            status := .succeeded
            completedAt := some completedTime
            result := some inference
            statusHistory := job.statusHistory
              ++ [({ status := .succeeded, timestamp := completedTime, message := none } : StatusEntry)] })
    | .error err =>
        (record,
         { job with
            status := .failed
            completedAt := some completedTime
            error := some err
            statusHistory := job.statusHistory
              ++ [({ status := .failed, timestamp := completedTime, message := some err } : StatusEntry)] })
  -- Store case and job
  { record := record
    job := job
    storage :=
      { cases := hset storage.cases record.id record
        jobs := hset storage.jobs job.id job
        files := files } }

structure SubmissionResult where
  record : CaseRecord
  job : Option InferenceJob
  storage : Storage
deriving Repr

/-- `storeCaseSubmission` from src/lib/data-platform.ts. -/
def storeCaseSubmission (penv : PredictionEnv) (upload : UploadEnv)
    (timestamp runningTime completedTime : Int) (storage : Storage)
    (submission : CaseSubmission) (inferenceOverride : Option InferenceResult) :
    SubmissionResult :=
  let id := createCaseId timestamp
  let jobId := createJobId timestamp
  -- Create initial pending inference
  let inference : InferenceResult := inferenceOverride.getD pendingInference
  let record : CaseRecord :=
    { demographics := submission.demographics
      development := submission.development
      assessments := submission.assessments
      behaviors := submission.behaviors
      notes := submission.notes
      id := id
      submittedAt := timestamp
      inference := inference
      jobId := some jobId
      artifacts := { payloadCid := none } }
  if penv.mockMode then
    -- Run prediction even in mock mode; nothing is persisted
    let record :=
      match runPrediction penv submission id with
      | .ok inf => { record with inference := inf }
      | .error _ => record
    { record := record, job := none, storage := storage }
  else
    let r := storeCaseInLiveMode penv upload timestamp runningTime completedTime
      storage record submission
    { record := r.record, job := some r.job, storage := r.storage }

/-- `loadCaseRecord` from src/lib/data-platform.ts: cohort seed lookup in
mock mode, CStore hget otherwise. -/
def loadCaseRecord (mockMode : Bool) (cohort : List CaseRecord)
    (storage : Storage) (caseId : String) : Option CaseRecord :=
  if mockMode then cohort.find? (fun c => c.id == caseId)
  else hget storage.cases caseId

/-- `loadInferenceJob` from src/lib/data-platform.ts. -/
def loadInferenceJob (mockMode : Bool) (mockJobs : List InferenceJob)
    (storage : Storage) (jobId : String) : Option InferenceJob :=
  if mockMode then mockJobs.find? (fun j => j.id == jobId)
  else hget storage.jobs jobId

/-- The in-place job update of `retryCasePrediction` on success
(src/lib/data-platform.ts lines 461-471): overwrite status and result,
clear the error, and append a backdated `running` entry and a fresh
`succeeded` entry. -/
def retryUpdateJob (inference : InferenceResult) (timestamp : Int)
    (job : InferenceJob) : InferenceJob :=
  { job with
    status := .succeeded
    completedAt := some timestamp
    result := some inference
    error := none
    statusHistory := job.statusHistory
      ++ [{ status := .running, timestamp := timestamp - 1000, message := some "Retry initiated" },
          { status := .succeeded, timestamp := timestamp, message := some "Retry successful" }] }

structure RetryResult where
  success : Bool
  caseRecord : Option CaseRecord
  error : Option String
  storage : Storage
deriving Repr

/-- The CaseSubmission `retryCasePrediction` reconstructs from a stored
record. -/
def submissionOfRecord (record : CaseRecord) : CaseSubmission :=
  { demographics := record.demographics
    development := record.development
    assessments := record.assessments
    behaviors := record.behaviors
    notes := record.notes }

/-- `retryCasePrediction` from src/lib/data-platform.ts.  The returned
`storage` models the persistence writes (unchanged in mock mode). -/
def retryCasePrediction (penv : PredictionEnv) (mockJobs : List InferenceJob)
    (cohort : List CaseRecord) (timestamp : Int) (storage : Storage)
    (caseId : String) : RetryResult :=
  -- Load existing case record
  match loadCaseRecord penv.mockMode cohort storage caseId with
  | none => { success := false, caseRecord := none, error := some "Case not found", storage := storage }
  | some record =>
    -- Extract submission data from case record and run prediction
    let submission := submissionOfRecord record
    match runPrediction penv submission caseId with
    | .error err =>
        { success := false
          caseRecord := none
          error := some (if err = "" then "Prediction failed" else err)
          storage := storage }
    | .ok inference =>
        -- Update case record with new inference
        let record := { record with inference := inference }
        -- Update job if exists
        let job : Option InferenceJob :=
          match record.jobId with
          | some jid => loadInferenceJob penv.mockMode mockJobs storage jid
          | none => none
        let job := job.map (retryUpdateJob inference timestamp)
        -- Persist updates (live mode only)
        let storage :=
          if penv.mockMode then storage
          else
            let s := { storage with cases := hset storage.cases record.id record }
            match job with
            | some j => { s with jobs := hset s.jobs j.id j }
            | none => s
        { success := true, caseRecord := some record, error := none, storage := storage }

/-! ## Invariant vocabulary -/

def historyTimestamps (h : List StatusEntry) : List Int :=
  h.map (·.timestamp)

/-- Timestamps are monotonically non-decreasing in list order. -/
def nondecreasing : List Int → Bool
  | [] => true
  | [_] => true
  | a :: b :: rest => decide (a ≤ b) && nondecreasing (b :: rest)

/-- The job's status field equals the status of the last history entry. -/
def lastStatusAgrees (job : InferenceJob) : Prop :=
  job.statusHistory.getLast?.map (·.status) = some job.status

/-- Every risk factor of the mock predictor is absent (an IQ/DQ of at
least 85 contributes no risk weight). -/
def allRiskFactorsAbsent (sd : StructData) : Prop :=
  sd.developmental_milestones = .N ∧ sd.intellectual_disability = .N ∧
  sd.language_disorder = .N ∧ sd.language_development = .N ∧
  sd.dysmorphism = .NO ∧ sd.behaviour_disorder = .N ∧ 85 ≤ sd.iq_dq

/-- Every categorical risk factor of the mock predictor is present. -/
def allRiskFactorsPresent (sd : StructData) : Prop :=
  sd.developmental_milestones ≠ .N ∧ sd.intellectual_disability ≠ .N ∧
  sd.language_disorder = .Y ∧ sd.language_development ≠ .N ∧
  sd.dysmorphism = .Y ∧ sd.behaviour_disorder = .Y

/-! ## Concrete instances used by witnesses and counterexamples -/

/-- A request payload with the given IQ/DQ and neurological-exam text and
every enumerated field at its no-finding value. -/
def mkPayload (iq : ℚ) (neuro : String) : AspireApiRequest :=
  { struct_data :=
      { developmental_milestones := .N
        iq_dq := iq
        intellectual_disability := .N
        language_disorder := .N
        language_development := .N
        dysmorphism := .NO
        behaviour_disorder := .N
        neurological_exam := neuro }
    metadata := none }

/-- A payload with every categorical risk factor present and IQ/DQ 60. -/
def highRiskPayload : AspireApiRequest :=
  { struct_data :=
      { developmental_milestones := .G
        iq_dq := 60
        intellectual_disability := .F71
        language_disorder := .Y
        language_development := .A
        dysmorphism := .Y
        behaviour_disorder := .Y
        neurological_exam := "Abnormal reflexes" }
    metadata := none }

def sampleDemographics : Demographics :=
  { caseLabel := "Case A"
    ageMonths := 36
    sex := .male
    parentalAge := { mother := 30, father := 33 }
    diagnosticAgeMonths := 30
    prenatalFactors := [] }

def sampleSubmission : CaseSubmission :=
  { demographics := sampleDemographics
    development :=
      { delays := [.motor, .global]
        dysmorphicFeatures := false
        intellectualDisability := .N
        comorbidities := []
        regressionObserved := false }
    assessments :=
      { adosScore := 12
        adirScore := 30
        iqDq := 100
        eegAnomalies := false
        mriFindings := none
        neurologicalExam := "Normal"
        headCircumference := 50 }
    behaviors :=
      { concerns := [.stereotypy]
        languageLevel := .delayed
        sensoryNotes := "" }
    notes := "first visit" }

/-- Same clinical content as `sampleSubmission`, different demographics
and notes. -/
def sampleSubmissionB : CaseSubmission :=
  { sampleSubmission with
    demographics :=
      { caseLabel := "Case B"
        ageMonths := 48
        sex := .female
        parentalAge := { mother := 27, father := 29 }
        diagnosticAgeMonths := 44
        prenatalFactors := [.ivf] }
    notes := "second opinion" }

/-- A submission whose mapped payload fails validation (blank
neurological exam). -/
def invalidSubmission : CaseSubmission :=
  { sampleSubmission with
    assessments := { sampleSubmission.assessments with neurologicalExam := "  " } }

/-- Mock-mode configuration (`MOCK_MODE = true`). -/
def mockPredictionEnv : PredictionEnv :=
  { mockMode := true
    aspireEnabled := false
    predictor := fun _ => .error (.networkError "unreachable")
    jitter := 0
    confRand := 0
    requestId := "mock-req-1" }

/-- Live persistence with the Aspire API disabled, so predictions use the
mock path (`MOCK_MODE = false`, `aspire.enabled = false`). -/
def livePredictionEnv : PredictionEnv :=
  { mockMode := false
    aspireEnabled := false
    predictor := fun _ => .error (.networkError "unreachable")
    jitter := 0
    confRand := 0
    requestId := "mock-req-2" }

def emptyStorage : Storage :=
  { cases := [], jobs := [], files := [] }

/-- The validation-failure message produced for `invalidSubmission`. -/
def failMsgNeuro : String :=
  "Validation failed: " ++ neuroExamErrorMessage

/-- A stored case record with no prior job whose submission data fails
validation (blank neurological exam). -/
def invalidRecord : CaseRecord :=
  { demographics := invalidSubmission.demographics
    development := invalidSubmission.development
    assessments := invalidSubmission.assessments
    behaviors := invalidSubmission.behaviors
    notes := invalidSubmission.notes
    id := "C-bad"
    submittedAt := 0
    inference := pendingInference
    jobId := none
    artifacts := { payloadCid := none } }

/-- Storage holding only `invalidRecord`, with no jobs. -/
def badStorage : Storage :=
  { cases := [("C-bad", invalidRecord)], jobs := [], files := [] }

/-- A full live-mode submission at times 0, 1, 2 (queued, running,
completed), with the R1FS upload failing (swallowed). -/
def cexSubmit : SubmissionResult :=
  storeCaseSubmission livePredictionEnv ⟨Except.error ()⟩ 0 1 2 emptyStorage
    sampleSubmission none

/-- A retry of that case 1 millisecond after its job completed (clock
still monotone: the retry happens at time 3). -/
def cexRetry : RetryResult :=
  retryCasePrediction livePredictionEnv [] [] 3 cexSubmit.storage (createCaseId 0)

/-! ## Theorems -/

/-- C2: for every submission, `mapCaseToApiPayload` encodes exactly one
developmental-milestones code by the priority order
Global > Motor > Cognitive > none: the code is `G` whenever the delay list
contains Global (regardless of other tags), else `M` whenever it contains
Motor, else `C` whenever it contains Cognitive, else `N`. -/
theorem milestones_priority (s : CaseSubmission) (cid : Option String) :
    (DevelopmentalDelay.global ∈ s.development.delays →
      (mapCaseToApiPayload s cid).struct_data.developmental_milestones = .G) ∧
    (DevelopmentalDelay.global ∉ s.development.delays →
      DevelopmentalDelay.motor ∈ s.development.delays →
      (mapCaseToApiPayload s cid).struct_data.developmental_milestones = .M) ∧
    (DevelopmentalDelay.global ∉ s.development.delays →
      DevelopmentalDelay.motor ∉ s.development.delays →
      DevelopmentalDelay.cognitive ∈ s.development.delays →
      (mapCaseToApiPayload s cid).struct_data.developmental_milestones = .C) ∧
    (DevelopmentalDelay.global ∉ s.development.delays →
      DevelopmentalDelay.motor ∉ s.development.delays →
      DevelopmentalDelay.cognitive ∉ s.development.delays →
      (mapCaseToApiPayload s cid).struct_data.developmental_milestones = .N) := by
  refine ⟨fun hG => ?_, fun hG hM => ?_, fun hG hM hC => ?_, fun hG hM hC => ?_⟩
  · simp [mapCaseToApiPayload, hG]
  · simp [mapCaseToApiPayload, hG, hM]
  · simp [mapCaseToApiPayload, hG, hM, hC]
  · simp [mapCaseToApiPayload, hG, hM, hC]

/-- Witness for C2 at a submission whose delay list contains both Motor
and Global: the mapped code is Global's. -/
theorem milestones_priority_witness :
    DevelopmentalDelay.global ∈ sampleSubmission.development.delays ∧
    (mapCaseToApiPayload sampleSubmission none).struct_data.developmental_milestones = .G :=
  ⟨by decide, (milestones_priority sampleSubmission none).1 (by decide)⟩

/-- C7: the mapped language-disorder flag is `Y` iff the language level is
not `Functional`, and the mapped behaviour-disorder flag is `Y` iff the
behavior-concern list is non-empty. -/
theorem language_and_behaviour_flags (s : CaseSubmission) (cid : Option String) :
    ((mapCaseToApiPayload s cid).struct_data.language_disorder = .Y ↔
      s.behaviors.languageLevel ≠ .functional) ∧
    ((mapCaseToApiPayload s cid).struct_data.behaviour_disorder = .Y ↔
      s.behaviors.concerns ≠ []) := by
  constructor
  · by_cases h : s.behaviors.languageLevel = .functional <;> simp [mapCaseToApiPayload, h]
  · rcases hc : s.behaviors.concerns with _ | ⟨c, cs⟩ <;> simp [mapCaseToApiPayload, hc]

/-- C9: `mapCaseToApiPayload` is deterministic and total, and its output
depends only on the development, assessments and behaviors sections of the
submission (demographics and notes are irrelevant); in particular two
calls on the same submission and case id give identical outputs. -/
theorem mapper_pure_deterministic (s₁ s₂ : CaseSubmission) (cid : Option String)
    (hdev : s₁.development = s₂.development)
    (hass : s₁.assessments = s₂.assessments)
    (hbeh : s₁.behaviors = s₂.behaviors) :
    mapCaseToApiPayload s₁ cid = mapCaseToApiPayload s₂ cid := by
  simp [mapCaseToApiPayload, hdev, hass, hbeh]

/-- Witness for C9: two submissions differing in demographics and notes
map to the same payload. -/
theorem mapper_pure_deterministic_witness :
    sampleSubmission.development = sampleSubmissionB.development ∧
    sampleSubmission.assessments = sampleSubmissionB.assessments ∧
    sampleSubmission.behaviors = sampleSubmissionB.behaviors ∧
    mapCaseToApiPayload sampleSubmission (some "case-9") =
      mapCaseToApiPayload sampleSubmissionB (some "case-9") :=
  ⟨by decide, by decide, by decide,
    mapper_pure_deterministic sampleSubmission sampleSubmissionB (some "case-9")
      (by decide) (by decide) (by decide)⟩

/-- C5: `validateApiPayload` reports every violated constraint at once
(not fail-fast): a violated IQ/DQ range and a blank neurological exam each
contribute their message, simultaneously when both are violated, and a
non-empty error list yields an `invalid` result carrying the whole list.
Concretely: iq_dq 10 and 200 are rejected with the IQ/DQ-specific message,
iq_dq 20 and 150 pass (inclusive bounds), a whitespace-only exam text is
rejected, and a payload violating both constraints reports both. -/
theorem validate_reports_all_violations :
    (∀ p : AspireApiRequest,
      ((p.struct_data.iq_dq < 20 ∨ p.struct_data.iq_dq > 150) →
        iqDqErrorMessage p.struct_data.iq_dq ∈ validationErrors p) ∧
      (jsTrim p.struct_data.neurological_exam = "" →
        neuroExamErrorMessage ∈ validationErrors p) ∧
      (validationErrors p ≠ [] →
        validateApiPayload p = .invalid (validationErrors p))) ∧
    validateApiPayload (mkPayload 10 "Normal") = .invalid [iqDqErrorMessage 10] ∧
    validateApiPayload (mkPayload 200 "Normal") = .invalid [iqDqErrorMessage 200] ∧
    validateApiPayload (mkPayload 20 "Normal") = .valid (mkPayload 20 "Normal") ∧
    validateApiPayload (mkPayload 150 "Normal") = .valid (mkPayload 150 "Normal") ∧
    validateApiPayload (mkPayload 100 "   ") = .invalid [neuroExamErrorMessage] ∧
    validateApiPayload (mkPayload 10 " ") =
      .invalid [iqDqErrorMessage 10, neuroExamErrorMessage] := by
  refine ⟨fun p => ⟨fun hiq => ?_, fun hneuro => ?_, fun hne => ?_⟩,
    by decide, by decide, by decide, by decide, by decide, by decide⟩
  · simp [validationErrors, hiq]
  · simp [validationErrors, hneuro]
  · rcases he : validationErrors p with _ | ⟨e, es⟩
    · exact absurd he hne
    · simp [validateApiPayload, he]

/-- Witness for C5: a payload violating both the IQ/DQ range and the
neurological-exam requirement reports both messages at once. -/
theorem validate_reports_all_violations_witness :
    ((mkPayload 10 " ").struct_data.iq_dq < 20 ∨
      (mkPayload 10 " ").struct_data.iq_dq > 150) ∧
    jsTrim (mkPayload 10 " ").struct_data.neurological_exam = "" ∧
    iqDqErrorMessage (mkPayload 10 " ").struct_data.iq_dq ∈ validationErrors (mkPayload 10 " ") ∧
    neuroExamErrorMessage ∈ validationErrors (mkPayload 10 " ") :=
  ⟨by decide, by decide,
    (validate_reports_all_violations.1 (mkPayload 10 " ")).1 (by decide),
    (validate_reports_all_violations.1 (mkPayload 10 " ")).2.1 (by decide)⟩

/-- C4: validation of the mapped payload gates the prediction client:
whenever validation returns errors, `runPrediction` returns the validation
failure, for every configuration, live predictor, and mock-randomness
draw — so a payload that fails validation is never passed to the
prediction client (live or mock), and the outcome is independent of it. -/
theorem validation_gates_prediction_client (submission : CaseSubmission)
    (caseId : String) (errs : List String)
    (hinvalid : validateApiPayload (mapCaseToApiPayload submission (some caseId)) =
      .invalid errs) :
    ∀ penv : PredictionEnv,
      runPrediction penv submission caseId =
        .error ("Validation failed: " ++ String.intercalate ", " errs) := by
  intro penv
  simp [runPrediction, hinvalid]

/-- Witness for C4: an invalid submission yields the validation failure
through `runPrediction` under the mock configuration. -/
theorem validation_gates_prediction_client_witness :
    validateApiPayload (mapCaseToApiPayload invalidSubmission (some "case-4")) =
      .invalid [neuroExamErrorMessage] ∧
    runPrediction mockPredictionEnv invalidSubmission "case-4" =
      .error ("Validation failed: " ++ String.intercalate ", " [neuroExamErrorMessage]) :=
  ⟨by decide,
    validation_gates_prediction_client invalidSubmission "case-4"
      [neuroExamErrorMessage] (by decide) mockPredictionEnv⟩

/-- C6: for every request and jitter draw in the mock predictor's range,
the probability is clamped to [0.05, 0.95]; the label is ASD exactly when
the probability reaches 0.5 and Healthy otherwise; the risk level is high
when probability ≥ 0.7, medium when 0.4 ≤ probability < 0.7, else low;
with every risk factor absent the probability is strictly below 0.5 and
the result is (Healthy, low); with every risk factor present and
IQ/DQ < 70 the probability is at most 0.95 and the risk level is high. -/
theorem mock_prediction_spec (p : AspireApiRequest) (jitter confRand : ℚ)
    (requestId : String)
    (hj₁ : -(1/20) ≤ jitter) (hj₂ : jitter ≤ 1/20) :
    let r := generateMockPredictionResponse p jitter confRand requestId
    (5/100 ≤ r.probability ∧ r.probability ≤ 95/100) ∧
    (r.prediction = .asd ↔ 1/2 ≤ r.probability) ∧
    (r.risk_level = .high ↔ 7/10 ≤ r.probability) ∧
    (r.risk_level = .medium ↔ 4/10 ≤ r.probability ∧ r.probability < 7/10) ∧
    (r.risk_level = .low ↔ r.probability < 4/10) ∧
    (allRiskFactorsAbsent p.struct_data →
      r.probability < 1/2 ∧ r.prediction = .healthy ∧ r.risk_level = .low) ∧
    (allRiskFactorsPresent p.struct_data → p.struct_data.iq_dq < 70 →
      r.probability ≤ 95/100 ∧ r.risk_level = .high) := by
  intro r
  have hprob : r.probability =
      min (95/100)
        (max (5/100)
          (((if p.struct_data.developmental_milestones ≠ .N then (15:ℚ)/100 else 0)
            + (if p.struct_data.intellectual_disability ≠ .N then (20:ℚ)/100 else 0)
            + (if p.struct_data.language_disorder = .Y then (15:ℚ)/100 else 0)
            + (if p.struct_data.language_development ≠ .N then (10:ℚ)/100 else 0)
            + (if p.struct_data.dysmorphism = .Y then (10:ℚ)/100 else 0)
            + (if p.struct_data.behaviour_disorder = .Y then (15:ℚ)/100 else 0)
            + (if p.struct_data.iq_dq < 70 then (15:ℚ)/100
               else if p.struct_data.iq_dq < 85 then (5:ℚ)/100 else 0)) + jitter)) := rfl
  have hpred : r.prediction = if r.probability ≥ 1/2 then .asd else .healthy := rfl
  have hrisk : r.risk_level =
      if r.probability ≥ 7/10 then .high
      else if r.probability ≥ 4/10 then .medium
      else .low := rfl
  have hclamp : 5/100 ≤ r.probability ∧ r.probability ≤ 95/100 := by
    constructor
    · rw [hprob]
      exact le_min (by norm_num) (le_max_left _ _)
    · rw [hprob]
      exact min_le_left _ _
  refine ⟨hclamp, ?_, ?_, ?_, ?_, ?_, ?_⟩
  · rw [hpred]
    split <;> simp_all
  · rw [hrisk]
    split <;> rename_i h
    · simpa using h
    · split <;> rename_i h2
      · simp only [ge_iff_le] at h
        constructor <;> intro hh
        · simp at hh
        · exact absurd hh h
      · simp only [ge_iff_le] at h
        constructor <;> intro hh
        · simp at hh
        · exact absurd hh h
  · rw [hrisk]
    split <;> rename_i h
    · simp only [ge_iff_le] at h
      constructor <;> intro hh
      · simp at hh
      · linarith [hh.2]
    · split <;> rename_i h2
      · simp only [ge_iff_le] at h h2
        simp only [true_iff]
        exact ⟨h2, lt_of_not_le h⟩
      · simp only [ge_iff_le] at h h2
        constructor <;> intro hh
        · simp at hh
        · exact absurd hh.1 h2
  · rw [hrisk]
    split <;> rename_i h
    · simp only [ge_iff_le] at h
      constructor <;> intro hh
      · simp at hh
      · linarith
    · split <;> rename_i h2
      · simp only [ge_iff_le] at h h2
        constructor <;> intro hh
        · simp at hh
        · linarith
      · simp only [ge_iff_le] at h h2
        simpa using lt_of_not_le h2
  · intro habs
    obtain ⟨h1, h2, h3, h4, h5, h6, h7⟩ := habs
    have hn70 : ¬ p.struct_data.iq_dq < 70 := by linarith
    have hn85 : ¬ p.struct_data.iq_dq < 85 := by linarith
    have hscore : r.probability = 5/100 := by
      rw [hprob, h1, h2, h3, h4, h5, h6, if_neg hn70, if_neg hn85]
      simp only [ne_eq, not_true_eq_false, if_false,
        if_neg ((by decide) : ¬ (YN.N = YN.Y)),
        if_neg ((by decide) : ¬ (DysmorphismCode.NO = DysmorphismCode.Y)),
        zero_add, add_zero]
      rw [max_eq_left (by linarith), min_eq_right (by norm_num)]
    refine ⟨by rw [hscore]; norm_num, ?_, ?_⟩
    · rw [hpred, hscore]
      norm_num
    · rw [hrisk, hscore]
      norm_num
  · intro hpres hiq
    obtain ⟨h1, h2, h3, h4, h5, h6⟩ := hpres
    have hscore : r.probability = 95/100 := by
      rw [hprob, h3, h5, h6]
      simp only [ne_eq, h1, h2, h4, not_false_eq_true, if_true, if_pos hiq]
      rw [max_eq_right (by linarith), min_eq_left (by linarith)]
    exact ⟨by rw [hscore], by rw [hrisk, hscore]; norm_num⟩

/-- Witness for C6 at the all-absent payload with zero jitter: the mock
result is Healthy with low risk and probability clamped to 0.05. -/
theorem mock_prediction_spec_witness :
    -(1/20) ≤ (0:ℚ) ∧ (0:ℚ) ≤ 1/20 ∧
    allRiskFactorsAbsent (mkPayload 100 "Normal").struct_data ∧
    ((generateMockPredictionResponse (mkPayload 100 "Normal") 0 0 "req-6").probability < 1/2 ∧
      (generateMockPredictionResponse (mkPayload 100 "Normal") 0 0 "req-6").prediction = .healthy ∧
      (generateMockPredictionResponse (mkPayload 100 "Normal") 0 0 "req-6").risk_level = .low) :=
  ⟨by norm_num, by norm_num, by constructor <;> simp [mkPayload] <;> norm_num,
    (mock_prediction_spec (mkPayload 100 "Normal") 0 0 "req-6"
      (by norm_num) (by norm_num)).2.2.2.2.2.1
      (by constructor <;> simp [mkPayload] <;> norm_num)⟩

/-! ## Helper lemmas about the hash-store model -/

theorem find_map_replace {α : Type} (m : List (String × α)) (k : String) (v : α)
    (h : m.any (fun kv => kv.1 == k) = true) :
    (m.map (fun kv => if kv.1 == k then (k, v) else kv)).find? (fun kv => kv.1 == k)
      = some (k, v) := by
  induction m with
  | nil => simp at h
  | cons kv rest ih =>
    by_cases hk : kv.1 == k
    · simp [List.find?, hk]
    · have h2 : rest.any (fun kv => kv.1 == k) = true := by
        simpa [List.any_cons, hk] using h
      simp only [List.map_cons, List.find?, hk, if_false]
      simpa [hk] using ih h2

theorem hget_hset_self {α : Type} (m : List (String × α)) (k : String) (v : α) :
    hget (hset m k v) k = some v := by
  unfold hget hset
  by_cases h : m.any (fun kv => kv.1 == k)
  · rw [if_pos h, find_map_replace m k v h]
    rfl
  · rw [if_neg h]
    have hnone : m.find? (fun kv => kv.1 == k) = none := by
      rw [List.find?_eq_none]
      intro x hx hpx
      exact h (List.any_eq_true.mpr ⟨x, hx, hpx⟩)
    rw [List.find?_append, hnone]
    simp

theorem hget_mem {α : Type} (m : List (String × α)) (k : String) (v : α)
    (h : hget m k = some v) : (k, v) ∈ m := by
  unfold hget at h
  cases hf : m.find? (fun kv => kv.1 == k) with
  | none => rw [hf] at h; simp at h
  | some kv =>
    rw [hf] at h
    simp only [Option.map] at h
    rw [Option.some_inj] at h
    have hm := List.mem_of_find?_eq_some hf
    have hp := List.find?_some hf
    obtain ⟨a, b⟩ := kv
    have ha : a = k := by simpa using hp
    have hb : b = v := by simpa using h
    rw [← ha, ← hb]
    exact hm

theorem hset_keys_of_mem {α : Type} (m : List (String × α)) (k : String) (v : α)
    (h : m.any (fun kv => kv.1 == k) = true) :
    (hset m k v).map (·.1) = m.map (·.1) := by
  unfold hset
  rw [if_pos h, List.map_map]
  apply List.map_congr_left
  intro kv _
  simp only [Function.comp_apply]
  split
  · rename_i hcond
    exact ((by simpa using hcond : kv.1 = k)).symm
  · rfl

theorem any_key_of_mem {α : Type} (m : List (String × α)) (k : String) (v : α)
    (h : (k, v) ∈ m) : m.any (fun kv => kv.1 == k) = true :=
  List.any_eq_true.mpr ⟨(k, v), h, by simp⟩

/-- C3: when the prediction step fails (validation, API or network
error), the live-mode pipeline leaves the CaseRecord's inference at its
prior value — the pending placeholder on a first attempt —, sets the job
to `failed` with the error message stored and a failed history entry
appended last, and still returns and persists the created CaseRecord
instead of propagating the error. -/
theorem prediction_failure_keeps_record (penv : PredictionEnv) (upload : UploadEnv)
    (ts rt ct : Int) (storage : Storage) (submission : CaseSubmission) (err : String)
    (hlive : penv.mockMode = false)
    (hfail : runPrediction penv submission (createCaseId ts) = .error err) :
    let r := storeCaseSubmission penv upload ts rt ct storage submission none
    r.record.inference = pendingInference ∧
    r.record.id = createCaseId ts ∧
    r.job.map (·.status) = some .failed ∧
    r.job.map (·.error) = some (some err) ∧
    r.job.map (fun j => j.statusHistory.getLast?) =
      some (some { status := .failed, timestamp := ct, message := some err }) ∧
    hget r.storage.cases (createCaseId ts) = some r.record := by
  simp only [storeCaseSubmission, storeCaseInLiveMode, hlive, Bool.false_eq_true,
    if_false, hfail, Option.getD_none]
  exact ⟨trivial, trivial, rfl, rfl, rfl, hget_hset_self _ _ _⟩

/-- Witness for C3: a live-mode submission whose payload fails validation
(blank neurological exam) keeps the pending placeholder, marks the job
failed with the message, and still stores and returns the record. -/
theorem prediction_failure_keeps_record_witness :
    livePredictionEnv.mockMode = false ∧
    runPrediction livePredictionEnv invalidSubmission (createCaseId 0) =
      .error failMsgNeuro ∧
    (let r := storeCaseSubmission livePredictionEnv ⟨Except.error ()⟩ 0 1 2
        emptyStorage invalidSubmission none
     r.record.inference = pendingInference ∧
     r.record.id = createCaseId 0 ∧
     r.job.map (·.status) = some .failed ∧
     r.job.map (·.error) = some (some failMsgNeuro) ∧
     r.job.map (fun j => j.statusHistory.getLast?) =
       some (some { status := .failed, timestamp := 2, message := some failMsgNeuro }) ∧
     hget r.storage.cases (createCaseId 0) = some r.record) :=
  ⟨rfl, rfl,
    prediction_failure_keeps_record livePredictionEnv ⟨Except.error ()⟩ 0 1 2
      emptyStorage invalidSubmission failMsgNeuro rfl rfl⟩

/-- C10: with mock mode enabled, submission returns a fully-formed
CaseRecord — generated case id and job id, and (for a payload passing
validation) the mock predictor's inference — but persists nothing: cases,
jobs and uploaded files are all unchanged, and a subsequent fetch of the
returned id (against cohort seed data not containing it) finds nothing. -/
theorem mock_mode_persists_nothing (penv : PredictionEnv) (upload : UploadEnv)
    (ts rt ct : Int) (storage : Storage) (submission : CaseSubmission)
    (override : Option InferenceResult) (cohort : List CaseRecord)
    (hmock : penv.mockMode = true)
    (hfresh : ∀ c ∈ cohort, ¬ c.id = createCaseId ts) :
    let r := storeCaseSubmission penv upload ts rt ct storage submission override
    r.storage = storage ∧
    r.job = none ∧
    r.record.id = createCaseId ts ∧
    r.record.jobId = some (createJobId ts) ∧
    (validateApiPayload (mapCaseToApiPayload submission (some (createCaseId ts))) =
        .valid (mapCaseToApiPayload submission (some (createCaseId ts))) →
      r.record.inference = inferenceFromResponse
        (generateMockPredictionResponse
          (mapCaseToApiPayload submission (some (createCaseId ts)))
          penv.jitter penv.confRand penv.requestId)) ∧
    loadCaseRecord penv.mockMode cohort r.storage r.record.id = none := by
  simp only [storeCaseSubmission, hmock, if_true]
  refine ⟨?_, ?_, ?_, ?_, ?_, ?_⟩
  · cases hp : runPrediction penv submission (createCaseId ts) <;> simp [hp]
  · cases hp : runPrediction penv submission (createCaseId ts) <;> simp [hp]
  · cases hp : runPrediction penv submission (createCaseId ts) <;> simp [hp]
  · cases hp : runPrediction penv submission (createCaseId ts) <;> simp [hp]
  · intro hvalid
    have hrun : runPrediction penv submission (createCaseId ts) =
        .ok (inferenceFromResponse
          (generateMockPredictionResponse
            (mapCaseToApiPayload submission (some (createCaseId ts)))
            penv.jitter penv.confRand penv.requestId)) := by
      simp only [runPrediction, hvalid, hmock, Bool.true_or, if_true]
    simp [hrun]
  · cases hp : runPrediction penv submission (createCaseId ts) <;>
      · simp only [hp, loadCaseRecord, hmock, if_true]
        rw [List.find?_eq_none]
        intro c hc
        simpa using hfresh c hc

/-- Witness for C10 at a concrete mock-mode submission against an empty
cohort. -/
theorem mock_mode_persists_nothing_witness :
    mockPredictionEnv.mockMode = true ∧
    (let r := storeCaseSubmission mockPredictionEnv ⟨Except.error ()⟩ 0 1 2
        emptyStorage sampleSubmission none
     r.storage = emptyStorage ∧
     r.job = none ∧
     r.record.id = createCaseId 0 ∧
     r.record.jobId = some (createJobId 0) ∧
     (validateApiPayload (mapCaseToApiPayload sampleSubmission (some (createCaseId 0))) =
         .valid (mapCaseToApiPayload sampleSubmission (some (createCaseId 0))) →
       r.record.inference = inferenceFromResponse
         (generateMockPredictionResponse
           (mapCaseToApiPayload sampleSubmission (some (createCaseId 0)))
           mockPredictionEnv.jitter mockPredictionEnv.confRand mockPredictionEnv.requestId)) ∧
     loadCaseRecord mockPredictionEnv.mockMode [] r.storage r.record.id = none) :=
  ⟨rfl,
    mock_mode_persists_nothing mockPredictionEnv ⟨Except.error ()⟩ 0 1 2
      emptyStorage sampleSubmission none [] rfl (by intro c hc; simp at hc)⟩

theorem nondecreasing_append_two (xs : List Int) (a b : Int)
    (hxs : nondecreasing xs = true) (ha : ∀ x ∈ xs, x ≤ a) (hab : a ≤ b) :
    nondecreasing (xs ++ [a, b]) = true := by
  induction xs with
  | nil => simp [nondecreasing, hab]
  | cons x rest ih =>
    cases rest with
    | nil =>
      have hxa : x ≤ a := ha x (by simp)
      simp [nondecreasing, hxa, hab]
    | cons y rest2 =>
      have hxs2 : (decide (x ≤ y) && nondecreasing (y :: rest2)) = true := hxs
      rw [Bool.and_eq_true] at hxs2
      have ihy := ih hxs2.2 (fun z hz => ha z (List.mem_cons_of_mem x hz))
      show (decide (x ≤ y) && nondecreasing (y :: (rest2 ++ [a, b]))) = true
      rw [Bool.and_eq_true]
      exact ⟨hxs2.1, ihy⟩

set_option maxHeartbeats 1600000 in
/-- C1 (amended): for every case record created by submission, the job's
status-history timestamps are monotonically non-decreasing (given the
in-order clock reads of the pipeline) and the job's status equals the
status of the last history entry; for a job updated by retry, the status
equals the last history entry's status unconditionally, but the
timestamps stay non-decreasing only when the retry time is at least
1000 ms after every prior history timestamp, because the retry backdates
its `running` entry by 1000 ms (`timestamp.getTime() - 1000`). -/
theorem job_history_monotone_amended :
    (∀ (penv : PredictionEnv) (upload : UploadEnv) (ts rt ct : Int)
        (storage : Storage) (submission : CaseSubmission)
        (override : Option InferenceResult) (j : InferenceJob),
      ts ≤ rt → rt ≤ ct →
      (storeCaseSubmission penv upload ts rt ct storage submission override).job = some j →
      nondecreasing (historyTimestamps j.statusHistory) = true ∧ lastStatusAgrees j) ∧
    (∀ (inference : InferenceResult) (t : Int) (j : InferenceJob),
      lastStatusAgrees (retryUpdateJob inference t j) ∧
      (nondecreasing (historyTimestamps j.statusHistory) = true →
        (∀ e ∈ j.statusHistory, e.timestamp ≤ t - 1000) →
        nondecreasing (historyTimestamps (retryUpdateJob inference t j).statusHistory) = true)) := by
  constructor
  · intro penv upload ts rt ct storage submission override j h1 h2 hj
    by_cases hmock : penv.mockMode
    · rcases hp : runPrediction penv submission (createCaseId ts) with inf | e <;>
        simp [storeCaseSubmission, hmock, hp] at hj
    · rcases hp : runPrediction penv submission (createCaseId ts) with e | inf <;>
      · simp only [storeCaseSubmission, storeCaseInLiveMode, hmock, Bool.false_eq_true,
          if_false, hp, Option.some_inj] at hj
        subst hj
        refine ⟨?_, ?_⟩
        · simp [historyTimestamps, createStatusHistory, nondecreasing,
            decide_eq_true h1, decide_eq_true h2]
        · simp [lastStatusAgrees, createStatusHistory]
  · intro inference t j
    constructor
    · simp only [lastStatusAgrees, retryUpdateJob]
      simp [List.getLast?_append]
    · intro hmono hle
      simp only [retryUpdateJob, historyTimestamps, List.map_append]
      have h2 : List.map (fun e : StatusEntry => e.timestamp)
          [{ status := .running, timestamp := t - 1000, message := some "Retry initiated" },
           { status := .succeeded, timestamp := t, message := some "Retry successful" }]
          = [t - 1000, t] := rfl
      rw [h2]
      apply nondecreasing_append_two
      · simpa [historyTimestamps] using hmono
      · intro x hx
        rcases List.mem_map.mp hx with ⟨e, he, rfl⟩
        exact hle e he
      · omega

/-- Witness for C1 (amended): a concrete live-mode submission at clock
reads 0 ≤ 1 ≤ 2 yields a job with sorted history agreeing with its
status, and a retry 2000 ms after that job's last entry stays sorted. -/
theorem job_history_monotone_amended_witness :
    ((0:Int) ≤ 1 ∧ (1:Int) ≤ 2 ∧
      cexSubmit.job = some (cexSubmit.job.getD (retryUpdateJob pendingInference 0
        { id := "", caseId := "", status := .queued, submittedAt := 0, completedAt := none,
          edgeNode := none, payloadCid := none, result := none, error := none,
          statusHistory := [] })) ∧
      nondecreasing (historyTimestamps ((cexSubmit.job.getD (retryUpdateJob pendingInference 0
        { id := "", caseId := "", status := .queued, submittedAt := 0, completedAt := none,
          edgeNode := none, payloadCid := none, result := none, error := none,
          statusHistory := [] })).statusHistory)) = true) := by
  refine ⟨by norm_num, by norm_num, ?_, ?_⟩
  · rfl
  · exact ((job_history_monotone_amended.1 livePredictionEnv ⟨Except.error ()⟩ 0 1 2
      emptyStorage sampleSubmission none _ (by norm_num) (by norm_num) rfl).1)

/-- Counterexample to C1 as stated: a case updated by retry 1 ms after
its job completed (data-platform.ts backdates the retry's `running`
history entry by 1000 ms), leaving the persisted job's status-history
timestamps out of order: [0, 1, 2, -997, 3]. -/
theorem retry_history_not_monotone :
    cexRetry.success = true ∧
    (hget cexRetry.storage.jobs (createJobId 0)).map
      (fun j => nondecreasing (historyTimestamps j.statusHistory)) = some false := by
  constructor
  · rfl
  · rfl

theorem append_ne_of_head_ne (a b t : String) (c₁ c₂ : Char)
    (h₁ : a.data.head? = some c₁) (h₂ : b.data.head? = some c₂) (hc : c₁ ≠ c₂) :
    ¬ (a ++ t = b) := by
  intro h
  have hd : (a.data ++ t.data).head? = b.data.head? := by
    have hdata : (a ++ t).data = a.data ++ t.data := by
      cases a
      cases t
      rfl
    rw [← hdata, h]
  cases ha : a.data with
  | nil =>
    rw [ha] at h₁
    exact absurd h₁ (by simp)
  | cons c rest =>
    rw [ha] at hd h₁
    simp only [List.cons_append, List.head?_cons] at hd h₁
    have e1 : c = c₁ := Option.some_inj.mp h₁
    have e2 : c = c₂ := Option.some_inj.mp (hd.trans h₂)
    exact hc (e1 ▸ e2)

/-- Every error string `runPrediction` can return carries one of the four
prefixes the orchestrator attaches. -/
theorem runPrediction_error_forms (penv : PredictionEnv) (s : CaseSubmission)
    (cid : String) (e : String) (h : runPrediction penv s cid = .error e) :
    (∃ m, e = "Validation failed: " ++ m) ∨ (∃ m, e = "Validation error: " ++ m) ∨
    (∃ m, e = "API error: " ++ m) ∨ (∃ m, e = "Network error: " ++ m) := by
  simp only [runPrediction] at h
  cases hv : validateApiPayload (mapCaseToApiPayload s (some cid)) with
  | invalid errors =>
    rw [hv] at h
    have h2 : (Except.error ("Validation failed: " ++ String.intercalate ", " errors) :
        Except String InferenceResult) = .error e := h
    injection h2 with h3
    exact Or.inl ⟨String.intercalate ", " errors, h3.symm⟩
  | valid payload =>
    rw [hv] at h
    have h2 : (match (if (penv.mockMode || !penv.aspireEnabled) = true then
          Except.ok (generateMockPredictionResponse payload penv.jitter penv.confRand penv.requestId)
        else penv.predictor payload : Except AspireError AspireApiResponse) with
      | Except.ok response => (Except.ok (inferenceFromResponse response) :
          Except String InferenceResult)
      | Except.error err => Except.error (caughtErrorMessage err)) = Except.error e := h
    by_cases hm : (penv.mockMode || !penv.aspireEnabled) = true
    · rw [if_pos hm] at h2
      exact absurd h2 (by simp)
    · rw [if_neg hm] at h2
      cases hp : penv.predictor payload with
      | ok r =>
        rw [hp] at h2
        exact absurd h2 (by simp)
      | error ae =>
        rw [hp] at h2
        have h3 : caughtErrorMessage ae = e := by
          have h4 : (Except.error (caughtErrorMessage ae) : Except String InferenceResult)
            = Except.error e := h2
          injection h4
        cases ae with
        | validationError m => exact Or.inr (Or.inl ⟨m, h3.symm⟩)
        | apiError m c ty => exact Or.inr (Or.inr (Or.inl ⟨m, h3.symm⟩))
        | networkError m => exact Or.inr (Or.inr (Or.inr ⟨m, h3.symm⟩))

/-- C8: retry never crashes and returns structured results: a missing
case yields the failure `Case not found` (with no record and storage
untouched); a found case whose prediction fails yields a failure carrying
the prediction-error message (which always bears one of the
orchestrator's error prefixes and so is never confusable with
`Case not found`); and retry never creates a new case id or job id — the
returned record keeps the loaded record's id and jobId, and the key sets
of the case and job stores are unchanged. -/
theorem retry_structured_and_in_place :
    (∀ (penv : PredictionEnv) (mockJobs : List InferenceJob) (cohort : List CaseRecord)
        (t : Int) (storage : Storage) (caseId : String),
      loadCaseRecord penv.mockMode cohort storage caseId = none →
      retryCasePrediction penv mockJobs cohort t storage caseId =
        { success := false, caseRecord := none, error := some "Case not found",
          storage := storage }) ∧
    (∀ (penv : PredictionEnv) (mockJobs : List InferenceJob) (cohort : List CaseRecord)
        (t : Int) (storage : Storage) (caseId : String) (record : CaseRecord) (e : String),
      loadCaseRecord penv.mockMode cohort storage caseId = some record →
      runPrediction penv (submissionOfRecord record) caseId = .error e →
      retryCasePrediction penv mockJobs cohort t storage caseId =
        { success := false, caseRecord := none,
          error := some (if e = "" then "Prediction failed" else e), storage := storage }) ∧
    (∀ (penv : PredictionEnv) (s : CaseSubmission) (cid : String) (e : String),
      runPrediction penv s cid = .error e → ¬ e = "Case not found") ∧
    (∀ (penv : PredictionEnv) (mockJobs : List InferenceJob) (cohort : List CaseRecord)
        (t : Int) (storage : Storage) (caseId : String) (record : CaseRecord),
      loadCaseRecord penv.mockMode cohort storage caseId = some record →
      (retryCasePrediction penv mockJobs cohort t storage caseId).caseRecord = none ∨
        ((retryCasePrediction penv mockJobs cohort t storage caseId).caseRecord.map
            (fun c => c.id) = some record.id ∧
         (retryCasePrediction penv mockJobs cohort t storage caseId).caseRecord.map
            (fun c => c.jobId) = some record.jobId)) ∧
    (∀ (penv : PredictionEnv) (mockJobs : List InferenceJob) (cohort : List CaseRecord)
        (t : Int) (storage : Storage) (caseId : String) (record : CaseRecord),
      loadCaseRecord penv.mockMode cohort storage caseId = some record →
      (∀ kv ∈ storage.cases, kv.2.id = kv.1) →
      (∀ kv ∈ storage.jobs, kv.2.id = kv.1) →
      (retryCasePrediction penv mockJobs cohort t storage caseId).storage.cases.map
          (fun kv => kv.1) = storage.cases.map (fun kv => kv.1) ∧
      (retryCasePrediction penv mockJobs cohort t storage caseId).storage.jobs.map
          (fun kv => kv.1) = storage.jobs.map (fun kv => kv.1)) := by
  refine ⟨?_, ?_, ?_, ?_, ?_⟩
  · intro penv mockJobs cohort t storage caseId hload
    simp [retryCasePrediction, hload]
  · intro penv mockJobs cohort t storage caseId record e hload hp
    simp [retryCasePrediction, hload, hp]
  · intro penv s cid e h
    rcases runPrediction_error_forms penv s cid e h with ⟨m, rfl⟩ | ⟨m, rfl⟩ | ⟨m, rfl⟩ | ⟨m, rfl⟩
    · exact append_ne_of_head_ne _ _ m 'V' 'C' rfl rfl (by decide)
    · exact append_ne_of_head_ne _ _ m 'V' 'C' rfl rfl (by decide)
    · exact append_ne_of_head_ne _ _ m 'A' 'C' rfl rfl (by decide)
    · exact append_ne_of_head_ne _ _ m 'N' 'C' rfl rfl (by decide)
  · intro penv mockJobs cohort t storage caseId record hload
    cases hp : runPrediction penv (submissionOfRecord record) caseId with
    | error e =>
      left
      simp [retryCasePrediction, hload, hp]
    | ok inf =>
      right
      constructor <;> simp [retryCasePrediction, hload, hp]
  · intro penv mockJobs cohort t storage caseId record hload hcc hcj
    by_cases hmock : penv.mockMode = true
    · rw [hmock] at hload
      cases hp : runPrediction penv (submissionOfRecord record) caseId with
      | error e => simp [retryCasePrediction, hmock, hload, hp]
      | ok inf => simp [retryCasePrediction, hmock, hload, hp]
    · have hmockf : penv.mockMode = false := by simpa using hmock
      rw [hmockf] at hload
      have hmem : (caseId, record) ∈ storage.cases := by
        have hh : hget storage.cases caseId = some record := by
          simpa [loadCaseRecord] using hload
        exact hget_mem _ _ _ hh
      have hid : record.id = caseId := hcc (caseId, record) hmem
      have hanyc : storage.cases.any (fun kv => kv.1 == record.id) = true := by
        apply any_key_of_mem _ record.id record
        rw [hid]
        exact hmem
      cases hp : runPrediction penv (submissionOfRecord record) caseId with
      | error e => simp [retryCasePrediction, hmockf, hload, hp]
      | ok inf =>
        cases hjid : record.jobId with
        | none =>
          simp only [retryCasePrediction, hmockf, hload, hp, hjid, Bool.false_eq_true,
            if_false, Option.map_none]
          exact ⟨hset_keys_of_mem _ _ _ hanyc, rfl⟩
        | some jid =>
          cases hj : loadInferenceJob false mockJobs storage jid with
          | none =>
            simp only [retryCasePrediction, hmockf, hload, hp, hjid, hj, Bool.false_eq_true,
              if_false, Option.map_none]
            exact ⟨hset_keys_of_mem _ _ _ hanyc, rfl⟩
          | some j0 =>
            have hjmem : (jid, j0) ∈ storage.jobs := by
              have hh : hget storage.jobs jid = some j0 := by
                simpa [loadInferenceJob] using hj
              exact hget_mem _ _ _ hh
            have hjid2 : j0.id = jid := hcj (jid, j0) hjmem
            have hanyj : storage.jobs.any (fun kv => kv.1 == j0.id) = true := by
              apply any_key_of_mem _ j0.id j0
              rw [hjid2]
              exact hjmem
            simp only [retryCasePrediction, hmockf, hload, hp, hjid, hj, Bool.false_eq_true,
              if_false, Option.map_some]
            exact ⟨hset_keys_of_mem _ _ _ hanyc, hset_keys_of_mem _ _ _ hanyj⟩

/-- Witness for C8: retry of a missing id returns the `Case not found`
failure; retry of a stored case with no prior job whose prediction fails
returns the structured prediction failure with storage untouched and key
sets unchanged, and that message is not `Case not found`. -/
theorem retry_structured_and_in_place_witness :
    loadCaseRecord mockPredictionEnv.mockMode [] emptyStorage "missing" = none ∧
    retryCasePrediction mockPredictionEnv [] [] 0 emptyStorage "missing" =
      { success := false, caseRecord := none, error := some "Case not found",
        storage := emptyStorage } ∧
    loadCaseRecord livePredictionEnv.mockMode [] badStorage "C-bad" = some invalidRecord ∧
    runPrediction livePredictionEnv (submissionOfRecord invalidRecord) "C-bad" =
      .error failMsgNeuro ∧
    retryCasePrediction livePredictionEnv [] [] 0 badStorage "C-bad" =
      { success := false, caseRecord := none,
        error := some (if failMsgNeuro = "" then "Prediction failed" else failMsgNeuro),
        storage := badStorage } ∧
    (¬ failMsgNeuro = "Case not found") ∧
    ((retryCasePrediction livePredictionEnv [] [] 0 badStorage "C-bad").storage.cases.map
        (fun kv => kv.1) = badStorage.cases.map (fun kv => kv.1) ∧
     (retryCasePrediction livePredictionEnv [] [] 0 badStorage "C-bad").storage.jobs.map
        (fun kv => kv.1) = badStorage.jobs.map (fun kv => kv.1)) :=
  ⟨rfl,
    retry_structured_and_in_place.1 mockPredictionEnv [] [] 0 emptyStorage "missing" rfl,
    rfl,
    rfl,
    retry_structured_and_in_place.2.1 livePredictionEnv [] [] 0 badStorage "C-bad"
      invalidRecord failMsgNeuro rfl rfl,
    retry_structured_and_in_place.2.2.1 livePredictionEnv
      (submissionOfRecord invalidRecord) "C-bad" failMsgNeuro rfl,
    retry_structured_and_in_place.2.2.2.2 livePredictionEnv [] [] 0 badStorage "C-bad"
      invalidRecord rfl (by decide) (by intro kv hkv; simp [badStorage] at hkv)⟩

end Aspire
